import Mathlib

/-!
Verification of the MetaMCP RAG tool-selection subsystem.

This file gives a shallow embedding of the RAG client
(`apps/backend/src/lib/metamcp/rag/rag-client.ts`, class `RAGClient`) and of
the RAG list-tools middleware
(`apps/backend/src/lib/metamcp/metamcp-middleware/rag-tools.functional.ts`),
and proves properties of the embedded functions.

Network I/O is modelled by oracle parameters: a `FetchOutcome` for the
health probe and a `SelectFetchOutcome` for the select-tools POST. The
events actually emitted on the wire are collected in a `List NetEvent`, so
that statements about "no network I/O" are about an empty event list. The
mutable fields of the client (`healthyCache`, `lastHealthCheck`) are the
explicit `ClientState` threaded through each call, and `Date.now()` is the
explicit `now : Nat` argument (milliseconds).
-/

namespace MetaMCP

/-- An MCP tool record (the fields of the SDK `Tool` type the code reads:
only `name` is ever inspected; the rest ride along). -/
structure Tool where
  name : String
  description : Option String := none
  inputSchema : Option String := none
deriving DecidableEq, Repr

/-- `ToolSelectionResponse` from rag-client.ts. Scores are opaque to the
client (it never compares them), so they are embedded as integers. -/
structure ToolSelectionResponse where
  selected_tools : List String
  scores : List Int := []
  query : String := ""
  total_available : Nat := 0
  total_selected : Nat := 0
deriving DecidableEq, Repr

/-- `RAGClientConfig` from rag-client.ts. -/
structure RAGClientConfig where
  baseUrl : String
  enabled : Bool
  fallbackOnError : Bool
  timeout : Nat
  defaultLimit : Nat
  defaultThreshold : Int
deriving DecidableEq, Repr

/-- `RAGServiceError` from rag-client.ts (message plus optional HTTP status). -/
structure RAGServiceError where
  message : String
  statusCode : Option Nat := none
deriving DecidableEq, Repr

/-- The mutable fields of `RAGClient`: `healthyCache` and `lastHealthCheck`. -/
structure ClientState where
  healthyCache : Option Bool
  lastHealthCheck : Nat
deriving DecidableEq, Repr

/-- `HEALTH_CACHE_DURATION` from rag-client.ts: 30000 ms. -/
def HEALTH_CACHE_DURATION : Nat := 30000

/-- A network request actually issued by the client. -/
inductive NetEvent where
  | healthProbe
  | selectPost
deriving DecidableEq, Repr

/-- Outcome of the GET /health fetch: a response with its `ok` flag, or a
thrown error (network failure or fetch timeout). -/
inductive FetchOutcome where
  | ok (respOk : Bool)
  | netError
deriving DecidableEq, Repr

/-- Outcome of the POST /select-tools fetch: a response with its `ok` flag,
HTTP status, and the result of `response.json()` (`none` models a malformed
payload, i.e. `json()` throwing), or a thrown error (network failure or
timeout). -/
inductive SelectFetchOutcome where
  | response (respOk : Bool) (status : Nat) (body : Option ToolSelectionResponse)
  | netError
deriving DecidableEq, Repr

/-- The select-tools fetch outcomes the client treats as failures: a thrown
error, a non-ok response, or a malformed payload. -/
def SelectFetchOutcome.isFailure : SelectFetchOutcome → Bool
  | .netError => true
  | .response respOk _ body => !respOk || body.isNone

/-- `RAGClient.isHealthy`: return the cached health value when it is present
and less than `HEALTH_CACHE_DURATION` old; otherwise probe GET /health,
cache the result (`false` when the fetch throws) with the current time, and
return it. Result: (returned boolean, new state, network events issued). -/
def isHealthy (st : ClientState) (now : Nat) (probe : FetchOutcome) :
    Bool × ClientState × List NetEvent :=
  match st.healthyCache with
  | some h =>
    if now - st.lastHealthCheck < HEALTH_CACHE_DURATION then
      (h, st, [])
    else
      match probe with
      | .ok respOk => (respOk, ⟨some respOk, now⟩, [NetEvent.healthProbe])
      | .netError => (false, ⟨some false, now⟩, [NetEvent.healthProbe])
  | none =>
    match probe with
    | .ok respOk => (respOk, ⟨some respOk, now⟩, [NetEvent.healthProbe])
    | .netError => (false, ⟨some false, now⟩, [NetEvent.healthProbe])

/-- `limit ?? this.config.defaultLimit` from rag-client.ts. -/
def actualLimit (cfg : RAGClientConfig) (limit : Option Nat) : Nat :=
  limit.getD cfg.defaultLimit

/-- The name-to-record mapping loop of `RAGClient.selectTools`: for each
selected tool name in order, find the first available tool with that name
and keep it; names with no match are skipped. -/
def mapSelectedTools (selected : List String) (availableTools : List Tool) : List Tool :=
  selected.filterMap (fun toolName => availableTools.find? (fun t => t.name == toolName))

/-- `RAGClient.selectTools`. When the client is disabled it returns the
available tools truncated to the limit, without touching the network. When
it is enabled it first runs `isHealthy`; an unhealthy service yields the
truncated fallback (or an error when `fallbackOnError` is off). Otherwise
the select-tools POST is issued; any failure outcome yields the truncated
fallback (or an error), and a successful response is mapped back to tool
records via `mapSelectedTools` with no truncation. -/
def selectTools (cfg : RAGClientConfig) (st : ClientState) (now : Nat)
    (healthProbe : FetchOutcome) (selectFetch : SelectFetchOutcome)
    (query : String) (availableTools : List Tool)
    (limit : Option Nat) (similarityThreshold : Option Int) :
    Except RAGServiceError (List Tool) × ClientState × List NetEvent :=
  if cfg.enabled = false then
    (Except.ok (availableTools.take (actualLimit cfg limit)), st, [])
  else
    let ih := isHealthy st now healthProbe
    if ih.1 = false then
      if cfg.fallbackOnError then
        (Except.ok (availableTools.take (actualLimit cfg limit)), ih.2.1, ih.2.2)
      else
        (Except.error ⟨"RAG service is not available", none⟩, ih.2.1, ih.2.2)
    else
      match selectFetch with
      | SelectFetchOutcome.netError =>
        if cfg.fallbackOnError then
          (Except.ok (availableTools.take (actualLimit cfg limit)), ih.2.1,
            ih.2.2 ++ [NetEvent.selectPost])
        else
          (Except.error ⟨"RAG tool selection failed", none⟩, ih.2.1,
            ih.2.2 ++ [NetEvent.selectPost])
      | SelectFetchOutcome.response respOk status body =>
        if respOk = false then
          if cfg.fallbackOnError then
            (Except.ok (availableTools.take (actualLimit cfg limit)), ih.2.1,
              ih.2.2 ++ [NetEvent.selectPost])
          else
            (Except.error ⟨"RAG tool selection failed", some status⟩, ih.2.1,
              ih.2.2 ++ [NetEvent.selectPost])
        else
          match body with
          | none =>
            if cfg.fallbackOnError then
              (Except.ok (availableTools.take (actualLimit cfg limit)), ih.2.1,
                ih.2.2 ++ [NetEvent.selectPost])
            else
              (Except.error ⟨"RAG tool selection failed", none⟩, ih.2.1,
                ih.2.2 ++ [NetEvent.selectPost])
          | some result =>
            (Except.ok (mapSelectedTools result.selected_tools availableTools), ih.2.1,
              ih.2.2 ++ [NetEvent.selectPost])

/-- The configuration of the module-level `ragClient` instance, built by
`new RAGClient()` with no overrides: `baseUrl` and `enabled` come from the
environment (passed here as the two optional env-var values), and
`fallbackOnError` is hard-wired to `true`. -/
def globalClientConfig (ragServiceUrl ragServiceEnabled : Option String) : RAGClientConfig :=
  { baseUrl := ragServiceUrl.getD "http://127.0.0.1:8002"
    enabled := !(ragServiceEnabled == some "false")
    fallbackOnError := true
    timeout := 5000
    defaultLimit := 10
    defaultThreshold := 0 }

/-- `RAGToolsConfig` from rag-tools.functional.ts with its defaults. -/
structure RAGToolsConfig where
  enabled : Bool := true
  maxTools : Nat := 10
  similarityThreshold : Int := 0
  fallbackOnError : Bool := true
  timeout : Nat := 5000
deriving DecidableEq, Repr

/-- The request params fields read by `extractUserIntentFromContext`. -/
structure MCPRequestParams where
  name : Option String := none
  query : Option String := none
deriving DecidableEq, Repr

/-- The request fields read by the middleware. -/
structure MCPRequest where
  params : Option MCPRequestParams := none
deriving DecidableEq, Repr

/-- `MetaMCPHandlerContext` fields read by the middleware. -/
structure MetaMCPHandlerContext where
  sessionId : Option String := none
  namespaceUuid : Option String := none
deriving DecidableEq, Repr

/-- JavaScript truthiness of an optional string field: `undefined`, `null`
and the empty string are falsy. -/
def truthyStr : Option String → Option String
  | some s => if s.isEmpty then none else some s
  | none => none

/-- `extractUserIntentFromContext` from rag-tools.functional.ts: the tool
name in `request.params.name` wins, then `request.params.query`, then (the
`sessionId` branch being a no-op) a namespace default when
`context.namespaceUuid` is truthy, then the generic default. -/
def extractUserIntentFromContext (request : MCPRequest)
    (context : MetaMCPHandlerContext) : String :=
  match truthyStr (request.params.bind MCPRequestParams.name) with
  | some n => "Find tools related to: " ++ n
  | none =>
    match truthyStr (request.params.bind MCPRequestParams.query) with
    | some q => q
    | none =>
      match truthyStr context.namespaceUuid with
      | some _ => "Select tools for current namespace workflow"
      | none => "Select the most commonly used and essential tools"

/-- The inner handler response seen by the list-tools middleware: the tools
list plus the other response fields, which the middleware must spread
through unchanged. -/
structure ListToolsResponse where
  tools : List Tool
  nextCursor : Option String := none
  meta : Option String := none
deriving DecidableEq, Repr

/-- The middleware produced by `createRAGListToolsMiddleware`, applied to
the inner handler response. When disabled or when there are no tools the
response passes through unchanged. Otherwise it calls
`ragClient.selectTools` with `maxTools` as the limit; on success the
response is returned with the selected tools spliced in, and when
`selectTools` throws, the middleware either falls back to the original
tools truncated to `maxTools` or rethrows, per its own `fallbackOnError`. -/
def createRAGListToolsMiddleware (mw : RAGToolsConfig) (clientCfg : RAGClientConfig)
    (st : ClientState) (now : Nat)
    (healthProbe : FetchOutcome) (selectFetch : SelectFetchOutcome)
    (request : MCPRequest) (context : MetaMCPHandlerContext)
    (response : ListToolsResponse) :
    Except RAGServiceError ListToolsResponse × ClientState × List NetEvent :=
  if mw.enabled = false ∨ response.tools = [] then
    (Except.ok response, st, [])
  else
    let userQuery := extractUserIntentFromContext request context
    match selectTools clientCfg st now healthProbe selectFetch userQuery
        response.tools (some mw.maxTools) (some mw.similarityThreshold) with
    | (Except.ok selectedTools, st1, evs) =>
      (Except.ok { response with tools := selectedTools }, st1, evs)
    | (Except.error e, st1, evs) =>
      if mw.fallbackOnError then
        (Except.ok { response with tools := response.tools.take mw.maxTools }, st1, evs)
      else
        (Except.error e, st1, evs)

/-- The number of tool names in a successful select-tools payload (0 on any
failure outcome). -/
def selectedCount : SelectFetchOutcome → Nat
  | .response _ _ (some r) => r.selected_tools.length
  | _ => 0

/-- One `selectTools` call whose select-tools POST fails with a network
error, keeping only the resulting client state. -/
def runFailingSelect (cfg : RAGClientConfig) (st : ClientState) (now : Nat) : ClientState :=
  (selectTools cfg st now (FetchOutcome.ok true) SelectFetchOutcome.netError
    "q" [] none none).2.1

/-- The client state after `n` consecutive failing select calls. -/
def afterFailures (cfg : RAGClientConfig) (st : ClientState) (now : Nat) : Nat → ClientState
  | 0 => st
  | n + 1 => runFailingSelect cfg (afterFailures cfg st now n) now

/-- The value a health probe reports: the `ok` flag of the response, or
`false` when the fetch throws. -/
def probeValue : FetchOutcome → Bool
  | .ok respOk => respOk
  | .netError => false

theorem isHealthy_cached (st : ClientState) (now : Nat) (probe : FetchOutcome)
    (h : Bool) (hc : st.healthyCache = some h)
    (ht : now - st.lastHealthCheck < HEALTH_CACHE_DURATION) :
    isHealthy st now probe = (h, st, []) := by
  simp [isHealthy, hc, ht]

theorem isHealthy_probes (st : ClientState) (now : Nat) (probe : FetchOutcome)
    (hmiss : st.healthyCache = none ∨ HEALTH_CACHE_DURATION ≤ now - st.lastHealthCheck) :
    isHealthy st now probe =
      (probeValue probe, ⟨some (probeValue probe), now⟩, [NetEvent.healthProbe]) := by
  rcases hmiss with hc | ht
  · cases probe <;> simp [isHealthy, hc, probeValue]
  · cases hc : st.healthyCache with
    | none => cases probe <;> simp [isHealthy, hc, probeValue]
    | some h => cases probe <;> simp [isHealthy, hc, probeValue, Nat.not_lt.mpr ht]

theorem isHealthy_state_cache (st : ClientState) (now : Nat) (probe : FetchOutcome) :
    (isHealthy st now probe).2.1.healthyCache = some (isHealthy st now probe).1 := by
  by_cases ht : now - st.lastHealthCheck < HEALTH_CACHE_DURATION
  · cases hc : st.healthyCache with
    | none => rw [isHealthy_probes st now probe (Or.inl hc)]
    | some h => rw [isHealthy_cached st now probe h hc ht]; exact hc
  · rw [isHealthy_probes st now probe (Or.inr (Nat.not_lt.mp ht))]

theorem isHealthy_events_ne_iff (st : ClientState) (now : Nat) (probe : FetchOutcome) :
    (isHealthy st now probe).2.2 ≠ [] ↔
      (st.healthyCache = none ∨ HEALTH_CACHE_DURATION ≤ now - st.lastHealthCheck) := by
  constructor
  · intro hne
    by_contra hmiss
    push_neg at hmiss
    obtain ⟨hc, ht⟩ := hmiss
    cases hcc : st.healthyCache with
    | none => exact hc hcc
    | some h =>
      rw [isHealthy_cached st now probe h hcc ht] at hne
      exact hne rfl
  · intro hmiss
    rw [isHealthy_probes st now probe hmiss]
    simp

theorem isHealthy_probe_timestamp (st : ClientState) (now : Nat) (probe : FetchOutcome)
    (hne : (isHealthy st now probe).2.2 ≠ []) :
    (isHealthy st now probe).2.1.lastHealthCheck = now ∧
      (isHealthy st now probe).1 = probeValue probe := by
  rw [isHealthy_probes st now probe ((isHealthy_events_ne_iff st now probe).mp hne)]
  exact ⟨rfl, rfl⟩

theorem isHealthy_value_stable (st : ClientState) (now : Nat) (probe : FetchOutcome) :
    (isHealthy (isHealthy st now probe).2.1 now probe).1 = (isHealthy st now probe).1 ∧
      (isHealthy (isHealthy st now probe).2.1 now probe).2.1 = (isHealthy st now probe).2.1 := by
  by_cases ht : now - st.lastHealthCheck < HEALTH_CACHE_DURATION
  · cases hc : st.healthyCache with
    | none =>
      rw [isHealthy_probes st now probe (Or.inl hc)]
      rw [isHealthy_cached ⟨some (probeValue probe), now⟩ now probe (probeValue probe) rfl
        (by simp [HEALTH_CACHE_DURATION])]
      exact ⟨rfl, rfl⟩
    | some h =>
      rw [isHealthy_cached st now probe h hc ht]
      rw [isHealthy_cached st now probe h hc ht]
      exact ⟨rfl, rfl⟩
  · rw [isHealthy_probes st now probe (Or.inr (Nat.not_lt.mp ht))]
    rw [isHealthy_cached ⟨some (probeValue probe), now⟩ now probe (probeValue probe) rfl
      (by simp [HEALTH_CACHE_DURATION])]
    exact ⟨rfl, rfl⟩

/-- The first component of `selectTools` as a function of the health value
alone: the returned value does not otherwise depend on the client state. -/
def selectResult (cfg : RAGClientConfig) (healthy : Bool) (selectFetch : SelectFetchOutcome)
    (availableTools : List Tool) (limit : Option Nat) :
    Except RAGServiceError (List Tool) :=
  if cfg.enabled = false then
    Except.ok (availableTools.take (actualLimit cfg limit))
  else if healthy = false then
    if cfg.fallbackOnError then
      Except.ok (availableTools.take (actualLimit cfg limit))
    else
      Except.error ⟨"RAG service is not available", none⟩
  else
    match selectFetch with
    | SelectFetchOutcome.netError =>
      if cfg.fallbackOnError then
        Except.ok (availableTools.take (actualLimit cfg limit))
      else
        Except.error ⟨"RAG tool selection failed", none⟩
    | SelectFetchOutcome.response respOk status body =>
      if respOk = false then
        if cfg.fallbackOnError then
          Except.ok (availableTools.take (actualLimit cfg limit))
        else
          Except.error ⟨"RAG tool selection failed", some status⟩
      else
        match body with
        | none =>
          if cfg.fallbackOnError then
            Except.ok (availableTools.take (actualLimit cfg limit))
          else
            Except.error ⟨"RAG tool selection failed", none⟩
        | some result =>
          Except.ok (mapSelectedTools result.selected_tools availableTools)

theorem selectTools_fst (cfg : RAGClientConfig) (st : ClientState) (now : Nat)
    (hp : FetchOutcome) (sf : SelectFetchOutcome) (q : String) (tools : List Tool)
    (l : Option Nat) (th : Option Int) :
    (selectTools cfg st now hp sf q tools l th).1 =
      selectResult cfg (isHealthy st now hp).1 sf tools l := by
  by_cases he : cfg.enabled = false
  · simp [selectTools, selectResult, he]
  · by_cases hh : (isHealthy st now hp).1 = false
    · by_cases hfb : cfg.fallbackOnError <;>
        simp [selectTools, selectResult, he, hh, hfb]
    · cases sf with
      | netError =>
        by_cases hfb : cfg.fallbackOnError <;>
          simp [selectTools, selectResult, he, hh, hfb]
      | response respOk status body =>
        by_cases hok : respOk = false
        · by_cases hfb : cfg.fallbackOnError <;>
            simp [selectTools, selectResult, he, hh, hok, hfb]
        · cases body <;> by_cases hfb : cfg.fallbackOnError <;>
            simp [selectTools, selectResult, he, hh, hok, hfb]

theorem selectTools_state (cfg : RAGClientConfig) (st : ClientState) (now : Nat)
    (hp : FetchOutcome) (sf : SelectFetchOutcome) (q : String) (tools : List Tool)
    (l : Option Nat) (th : Option Int) (he : cfg.enabled = true) :
    (selectTools cfg st now hp sf q tools l th).2.1 = (isHealthy st now hp).2.1 := by
  by_cases hh : (isHealthy st now hp).1 = false
  · by_cases hfb : cfg.fallbackOnError <;> simp [selectTools, he, hh, hfb]
  · cases sf with
    | netError => by_cases hfb : cfg.fallbackOnError <;> simp [selectTools, he, hh, hfb]
    | response respOk status body =>
      by_cases hok : respOk = false
      · by_cases hfb : cfg.fallbackOnError <;> simp [selectTools, he, hh, hok, hfb]
      · cases body <;> by_cases hfb : cfg.fallbackOnError <;>
          simp [selectTools, he, hh, hok, hfb]

theorem selectTools_state_disabled (cfg : RAGClientConfig) (st : ClientState) (now : Nat)
    (hp : FetchOutcome) (sf : SelectFetchOutcome) (q : String) (tools : List Tool)
    (l : Option Nat) (th : Option Int) (he : cfg.enabled = false) :
    (selectTools cfg st now hp sf q tools l th).2.1 = st := by
  unfold selectTools
  simp [he]

theorem selectTools_events (cfg : RAGClientConfig) (st : ClientState) (now : Nat)
    (hp : FetchOutcome) (sf : SelectFetchOutcome) (q : String) (tools : List Tool)
    (l : Option Nat) (th : Option Int) (he : cfg.enabled = true) :
    (selectTools cfg st now hp sf q tools l th).2.2 = (isHealthy st now hp).2.2 ∨
      (selectTools cfg st now hp sf q tools l th).2.2 =
        (isHealthy st now hp).2.2 ++ [NetEvent.selectPost] := by
  by_cases hh : (isHealthy st now hp).1 = false
  · left
    by_cases hfb : cfg.fallbackOnError <;> simp [selectTools, he, hh, hfb]
  · right
    cases sf with
    | netError => by_cases hfb : cfg.fallbackOnError <;> simp [selectTools, he, hh, hfb]
    | response respOk status body =>
      by_cases hok : respOk = false
      · by_cases hfb : cfg.fallbackOnError <;> simp [selectTools, he, hh, hok, hfb]
      · cases body <;> by_cases hfb : cfg.fallbackOnError <;>
          simp [selectTools, he, hh, hok, hfb]

theorem selectResult_fail (cfg : RAGClientConfig) (healthy : Bool)
    (sf : SelectFetchOutcome) (tools : List Tool) (l : Option Nat)
    (hfb : cfg.fallbackOnError = true)
    (hfail : healthy = false ∨ sf.isFailure = true) :
    selectResult cfg healthy sf tools l = Except.ok (tools.take (actualLimit cfg l)) := by
  unfold selectResult
  by_cases he : cfg.enabled = false
  · simp [he]
  · by_cases hh : healthy = false
    · simp [he, hh, hfb]
    · rcases hfail with hf | hsf
      · exact absurd hf hh
      · cases sf with
        | netError => simp [he, hh, hfb]
        | response respOk status body =>
          rw [SelectFetchOutcome.isFailure] at hsf
          rcases Bool.or_eq_true_iff.mp hsf with hok | hbody
          · simp [he, hh, Bool.not_eq_true' .. ▸ hok, hfb]
          · cases body with
            | none => by_cases hok : respOk = false <;> simp [he, hh, hok, hfb]
            | some r => simp at hbody

theorem selectResult_ok_cases (cfg : RAGClientConfig) (healthy : Bool)
    (sf : SelectFetchOutcome) (tools : List Tool) (l : Option Nat) (ts : List Tool)
    (h : selectResult cfg healthy sf tools l = Except.ok ts) :
    ts = tools.take (actualLimit cfg l) ∨
      ∃ status result, sf = SelectFetchOutcome.response true status (some result) ∧
        ts = mapSelectedTools result.selected_tools tools := by
  unfold selectResult at h
  by_cases he : cfg.enabled = false
  · rw [if_pos he] at h
    exact Or.inl (Except.ok.inj h).symm
  · rw [if_neg he] at h
    by_cases hh : healthy = false
    · rw [if_pos hh] at h
      by_cases hfb : cfg.fallbackOnError = true
      · rw [if_pos hfb] at h
        exact Or.inl (Except.ok.inj h).symm
      · rw [if_neg hfb] at h
        exact Except.noConfusion h
    · rw [if_neg hh] at h
      cases sf with
      | netError =>
        dsimp only at h
        by_cases hfb : cfg.fallbackOnError = true
        · rw [if_pos hfb] at h
          exact Or.inl (Except.ok.inj h).symm
        · rw [if_neg hfb] at h
          exact Except.noConfusion h
      | response respOk status body =>
        dsimp only at h
        by_cases hok : respOk = false
        · rw [if_pos hok] at h
          by_cases hfb : cfg.fallbackOnError = true
          · rw [if_pos hfb] at h
            exact Or.inl (Except.ok.inj h).symm
          · rw [if_neg hfb] at h
            exact Except.noConfusion h
        · rw [if_neg hok] at h
          cases body with
          | none =>
            by_cases hfb : cfg.fallbackOnError = true
            · rw [if_pos hfb] at h
              exact Or.inl (Except.ok.inj h).symm
            · rw [if_neg hfb] at h
              exact Except.noConfusion h
          | some result =>
            refine Or.inr ⟨status, result, ?_, (Except.ok.inj h).symm⟩
            rw [Bool.not_eq_false] at hok
            rw [hok]

/-- The first component of the middleware as a function of the health value
alone. -/
def mwResult (mw : RAGToolsConfig) (cfg : RAGClientConfig) (healthy : Bool)
    (sf : SelectFetchOutcome) (resp : ListToolsResponse) :
    Except RAGServiceError ListToolsResponse :=
  if mw.enabled = false ∨ resp.tools = [] then
    Except.ok resp
  else
    match selectResult cfg healthy sf resp.tools (some mw.maxTools) with
    | Except.ok ts => Except.ok { resp with tools := ts }
    | Except.error e =>
      if mw.fallbackOnError then
        Except.ok { resp with tools := resp.tools.take mw.maxTools }
      else
        Except.error e

theorem createRAG_fst (mw : RAGToolsConfig) (cfg : RAGClientConfig) (st : ClientState)
    (now : Nat) (hp : FetchOutcome) (sf : SelectFetchOutcome) (req : MCPRequest)
    (ctx : MetaMCPHandlerContext) (resp : ListToolsResponse) :
    (createRAGListToolsMiddleware mw cfg st now hp sf req ctx resp).1 =
      mwResult mw cfg (isHealthy st now hp).1 sf resp := by
  unfold createRAGListToolsMiddleware mwResult
  by_cases hcond : mw.enabled = false ∨ resp.tools = []
  · simp [hcond]
  · rw [if_neg hcond, if_neg hcond]
    dsimp only
    have hfst := selectTools_fst cfg st now hp sf (extractUserIntentFromContext req ctx)
        resp.tools (some mw.maxTools) (some mw.similarityThreshold)
    rcases hsel : selectTools cfg st now hp sf (extractUserIntentFromContext req ctx)
        resp.tools (some mw.maxTools) (some mw.similarityThreshold) with ⟨res, st1, evs⟩
    rw [hsel] at hfst
    dsimp only at hfst
    rw [← hfst]
    cases res with
    | ok ts => rfl
    | error e =>
      by_cases hfb : mw.fallbackOnError = true <;> simp [hfb]

theorem createRAG_state (mw : RAGToolsConfig) (cfg : RAGClientConfig) (st : ClientState)
    (now : Nat) (hp : FetchOutcome) (sf : SelectFetchOutcome) (req : MCPRequest)
    (ctx : MetaMCPHandlerContext) (resp : ListToolsResponse) :
    (createRAGListToolsMiddleware mw cfg st now hp sf req ctx resp).2.1 = st ∨
      (createRAGListToolsMiddleware mw cfg st now hp sf req ctx resp).2.1 =
        (isHealthy st now hp).2.1 := by
  unfold createRAGListToolsMiddleware
  by_cases hcond : mw.enabled = false ∨ resp.tools = []
  · left
    simp [hcond]
  · rw [if_neg hcond]
    dsimp only
    by_cases he : cfg.enabled = true
    · right
      have hst := selectTools_state cfg st now hp sf (extractUserIntentFromContext req ctx)
          resp.tools (some mw.maxTools) (some mw.similarityThreshold) he
      rcases hsel : selectTools cfg st now hp sf (extractUserIntentFromContext req ctx)
          resp.tools (some mw.maxTools) (some mw.similarityThreshold) with ⟨res, st1, evs⟩
      rw [hsel] at hst
      cases res with
      | ok ts => exact hst
      | error e =>
        dsimp only
        by_cases hfb : mw.fallbackOnError = true
        · rw [if_pos hfb]; exact hst
        · rw [if_neg hfb]; exact hst
    · left
      have hst := selectTools_state_disabled cfg st now hp sf
          (extractUserIntentFromContext req ctx) resp.tools (some mw.maxTools)
          (some mw.similarityThreshold) (Bool.not_eq_true _ ▸ he)
      rcases hsel : selectTools cfg st now hp sf (extractUserIntentFromContext req ctx)
          resp.tools (some mw.maxTools) (some mw.similarityThreshold) with ⟨res, st1, evs⟩
      rw [hsel] at hst
      cases res with
      | ok ts => exact hst
      | error e =>
        dsimp only
        by_cases hfb : mw.fallbackOnError = true
        · rw [if_pos hfb]; exact hst
        · rw [if_neg hfb]; exact hst

theorem find?_name_eq_self (tools : List Tool) (t : Tool)
    (hnodup : (tools.map Tool.name).Nodup) (hmem : t ∈ tools) :
    tools.find? (fun u => u.name == t.name) = some t := by
  induction tools with
  | nil => cases hmem
  | cons u rest ih =>
    rw [List.map_cons, List.nodup_cons] at hnodup
    rcases List.mem_cons.mp hmem with rfl | hmem'
    · exact List.find?_cons_of_pos rest (by simp)
    · have hne : u.name ≠ t.name := by
        intro heq
        exact hnodup.1 (heq ▸ List.mem_map_of_mem Tool.name hmem')

      rw [List.find?_cons_of_neg rest (by simp [hne])]
      exact ih hnodup.2 hmem'

theorem mem_mapSelectedTools (sel : List String) (tools : List Tool) (t : Tool)
    (hnodup : (tools.map Tool.name).Nodup) :
    t ∈ mapSelectedTools sel tools ↔ t ∈ tools ∧ t.name ∈ sel := by
  unfold mapSelectedTools
  rw [List.mem_filterMap]
  constructor
  · rintro ⟨n, hn, hfind⟩
    have hmem := List.mem_of_find?_eq_some hfind
    have hb := List.find?_some hfind
    have hname : t.name = n := eq_of_beq hb
    exact ⟨hmem, hname ▸ hn⟩
  · rintro ⟨hmem, hname⟩
    exact ⟨t.name, hname, find?_name_eq_self tools t hnodup hmem⟩

theorem map_filterMap_sublist {α β : Type} (f : α → Option β) (g : β → α) (l : List α)
    (hfg : ∀ a b, f a = some b → g b = a) :
    ((l.filterMap f).map g).Sublist l := by
  induction l with
  | nil => simp
  | cons a l ih =>
    cases hfa : f a with
    | none =>
      rw [List.filterMap_cons_none hfa]
      exact ih.cons a
    | some b =>
      rw [List.filterMap_cons_some hfa, List.map_cons, hfg a b hfa]
      exact ih.cons₂ a

theorem mapSelectedTools_names_sublist (sel : List String) (tools : List Tool) :
    ((mapSelectedTools sel tools).map Tool.name).Sublist sel := by
  unfold mapSelectedTools
  exact map_filterMap_sublist _ _ sel
    (fun n t hfind => by
      have hb := List.find?_some hfind
      exact eq_of_beq hb)

/-- A ten-capability catalog used to instantiate the fallback scenario. -/
def sampleCatalog : List Tool :=
  (List.range 10).map (fun i => { name := "tool" ++ toString i })

/-- C1: for every list-capabilities request through the RAG middleware with
the module-level client (whose `fallbackOnError` is hard-wired true), any
failure of the relevance subsystem — failed or unhealthy health check, or a
failing select fetch (network error, non-ok response, malformed payload) —
is absorbed locally: the middleware returns `Except.ok` with the original
tool list, possibly capped to `maxTools`, for every middleware
configuration and environment. -/
theorem C1_relevance_failures_absorbed (mw : RAGToolsConfig) (e1 e2 : Option String)
    (st : ClientState) (now : Nat) (hp : FetchOutcome) (sf : SelectFetchOutcome)
    (req : MCPRequest) (ctx : MetaMCPHandlerContext) (resp : ListToolsResponse)
    (hfail : (isHealthy st now hp).1 = false ∨ sf.isFailure = true) :
    ∃ r, (createRAGListToolsMiddleware mw (globalClientConfig e1 e2) st now hp sf
        req ctx resp).1 = Except.ok r ∧
      (r.tools = resp.tools ∨ r.tools = resp.tools.take mw.maxTools) := by
  rw [createRAG_fst]
  unfold mwResult
  by_cases hcond : mw.enabled = false ∨ resp.tools = []
  · exact ⟨resp, by rw [if_pos hcond], Or.inl rfl⟩
  · rw [if_neg hcond]
    rw [selectResult_fail (globalClientConfig e1 e2) (isHealthy st now hp).1 sf resp.tools
      (some mw.maxTools) rfl hfail]
    exact ⟨{ resp with tools := resp.tools.take mw.maxTools }, rfl, Or.inr rfl⟩

/-- Witness for C1 at a concrete failing input. -/
theorem C1_witness :
    ∃ r, (createRAGListToolsMiddleware {} (globalClientConfig none none) ⟨none, 0⟩ 0
        FetchOutcome.netError SelectFetchOutcome.netError {} {}
        ⟨[⟨"a", none, none⟩], none, none⟩).1 = Except.ok r ∧
      (r.tools = [⟨"a", none, none⟩] ∨ r.tools = [⟨"a", none, none⟩].take 10) :=
  C1_relevance_failures_absorbed {} none none ⟨none, 0⟩ 0 FetchOutcome.netError
    SelectFetchOutcome.netError {} {} ⟨[⟨"a", none, none⟩], none, none⟩ (Or.inl (by decide))

/-- C2 counterexample: the client keeps no failure counter, so after five
consecutive query failures the next select call still performs network I/O
(a select POST), contradicting the claimed circuit breaker. -/
theorem C2_counterexample :
    (selectTools (globalClientConfig none none)
        (afterFailures (globalClientConfig none none) ⟨none, 0⟩ 0 5) 0
        (FetchOutcome.ok true) SelectFetchOutcome.netError "q"
        [⟨"a", none, none⟩] none none).2.2 = [NetEvent.selectPost] ∧
      ([NetEvent.selectPost] : List NetEvent) ≠ [] := by
  exact ⟨by decide, by decide⟩

/-- C2 (amended): query failures leave the client state exactly as the
health check left it (no failure counter exists); the only short-circuit is
the health cache: while a cached `false` health result is younger than the
30-second window, select calls return the pass-through fallback with no
network I/O at all, and once the window has elapsed the next call re-probes
the service. -/
theorem C2_amended_health_cooldown (cfg : RAGClientConfig) (st : ClientState) (now : Nat)
    (hp : FetchOutcome) (sf : SelectFetchOutcome) (q : String) (tools : List Tool)
    (l : Option Nat) (th : Option Int)
    (he : cfg.enabled = true) (hfb : cfg.fallbackOnError = true) :
    (selectTools cfg st now hp sf q tools l th).2.1 = (isHealthy st now hp).2.1 ∧
    (st.healthyCache = some false → now - st.lastHealthCheck < HEALTH_CACHE_DURATION →
      selectTools cfg st now hp sf q tools l th =
        (Except.ok (tools.take (actualLimit cfg l)), st, [])) ∧
    (HEALTH_CACHE_DURATION ≤ now - st.lastHealthCheck →
      NetEvent.healthProbe ∈ (selectTools cfg st now hp sf q tools l th).2.2) := by
  refine ⟨selectTools_state cfg st now hp sf q tools l th he, ?_, ?_⟩
  · intro hc ht
    have hih := isHealthy_cached st now hp false hc ht
    simp [selectTools, he, hih, hfb]
  · intro ht
    have hih := isHealthy_probes st now hp (Or.inr ht)
    rcases selectTools_events cfg st now hp sf q tools l th he with hev | hev <;>
      rw [hev, hih] <;> simp

/-- Witness for the amended C2 at a concrete input. -/
theorem C2_amended_witness :
    selectTools (globalClientConfig none none) ⟨some false, 0⟩ 100 (FetchOutcome.ok true)
        SelectFetchOutcome.netError "q" [⟨"a", none, none⟩] none none =
      (Except.ok ([⟨"a", none, none⟩].take 10), ⟨some false, 0⟩, []) := by
  have h := C2_amended_health_cooldown (globalClientConfig none none) ⟨some false, 0⟩ 100
    (FetchOutcome.ok true) SelectFetchOutcome.netError "q" [⟨"a", none, none⟩]
    none none (by decide) rfl
  exact h.2.1 rfl (by decide)

/-- C3: when the relevance service is unavailable (the health check comes
back false) or the select fetch fails at the service level, the middleware
returns the full catalog capped to `maxTools` in its original order with no
error; when the catalog fits under `maxTools`, the whole catalog comes
back. -/
theorem C3_unavailable_returns_capped_catalog (mw : RAGToolsConfig) (e1 e2 : Option String)
    (st : ClientState) (now : Nat) (hp : FetchOutcome) (sf : SelectFetchOutcome)
    (req : MCPRequest) (ctx : MetaMCPHandlerContext) (resp : ListToolsResponse)
    (hmw : mw.enabled = true)
    (hfail : (isHealthy st now hp).1 = false ∨ sf.isFailure = true) :
    (createRAGListToolsMiddleware mw (globalClientConfig e1 e2) st now hp sf req ctx resp).1
      = Except.ok { resp with tools := resp.tools.take mw.maxTools } ∧
    (resp.tools.length ≤ mw.maxTools →
      (createRAGListToolsMiddleware mw (globalClientConfig e1 e2) st now hp sf req ctx resp).1
        = Except.ok resp) := by
  obtain ⟨tools, nc, m⟩ := resp
  have h1 : (createRAGListToolsMiddleware mw (globalClientConfig e1 e2) st now hp sf req ctx
      ⟨tools, nc, m⟩).1 = Except.ok ⟨tools.take mw.maxTools, nc, m⟩ := by
    rw [createRAG_fst]
    unfold mwResult
    by_cases hcond : mw.enabled = false ∨ ListToolsResponse.tools ⟨tools, nc, m⟩ = []
    · rcases hcond with hd | hnil
      · rw [hmw] at hd
        exact absurd hd (by simp)
      · rw [if_pos (Or.inr hnil)]
        dsimp only at hnil
        subst hnil
        rw [List.take_nil]
    · rw [if_neg hcond]
      rw [selectResult_fail (globalClientConfig e1 e2) (isHealthy st now hp).1 sf _
        (some mw.maxTools) rfl hfail]
      rfl
  refine ⟨h1, fun hlen => ?_⟩
  rw [h1]
  dsimp only at hlen
  rw [List.take_of_length_le hlen]

/-- Witness for C3: a service-level error over a ten-capability catalog
still yields all ten capabilities. -/
theorem C3_witness :
    (createRAGListToolsMiddleware {} (globalClientConfig none none) ⟨some false, 0⟩ 0
        (FetchOutcome.ok true) (SelectFetchOutcome.response false 500 none) {} {}
        ⟨sampleCatalog, none, none⟩).1
      = Except.ok ⟨sampleCatalog.take 10, none, none⟩ ∧
    (createRAGListToolsMiddleware {} (globalClientConfig none none) ⟨some false, 0⟩ 0
        (FetchOutcome.ok true) (SelectFetchOutcome.response false 500 none) {} {}
        ⟨sampleCatalog, none, none⟩).1
      = Except.ok ⟨sampleCatalog, none, none⟩ := by
  have h := C3_unavailable_returns_capped_catalog {} none none ⟨some false, 0⟩ 0
    (FetchOutcome.ok true) (SelectFetchOutcome.response false 500 none) {} {}
    ⟨sampleCatalog, none, none⟩ rfl (Or.inl (by decide))
  exact ⟨h.1, h.2 (by decide)⟩

/-- C4: on a successful relevance response the returned list is exactly the
name-to-record mapping of the selected names in the response over the
candidates, in the rank order of the response; under the catalog invariant
that candidate names are unique, membership is exactly joint membership in
the candidates and the selected names, and the name sequence of the output
is a subsequence of the selected names (no reordering beyond the order the
result specifies). -/
theorem C4_success_rank_order_mapping (cfg : RAGClientConfig) (st : ClientState) (now : Nat)
    (hp : FetchOutcome) (status : Nat) (result : ToolSelectionResponse)
    (q : String) (tools : List Tool) (l : Option Nat) (th : Option Int)
    (he : cfg.enabled = true) (hh : (isHealthy st now hp).1 = true)
    (hnodup : (tools.map Tool.name).Nodup) :
    (selectTools cfg st now hp (SelectFetchOutcome.response true status (some result))
        q tools l th).1 = Except.ok (mapSelectedTools result.selected_tools tools) ∧
    (∀ t, t ∈ mapSelectedTools result.selected_tools tools ↔
      (t ∈ tools ∧ t.name ∈ result.selected_tools)) ∧
    ((mapSelectedTools result.selected_tools tools).map Tool.name).Sublist
      result.selected_tools := by
  refine ⟨?_, fun t => mem_mapSelectedTools result.selected_tools tools t hnodup,
    mapSelectedTools_names_sublist result.selected_tools tools⟩
  rw [selectTools_fst]
  unfold selectResult
  simp [he, hh]

/-- Witness for C4 at a concrete successful response. -/
theorem C4_witness :
    (selectTools (globalClientConfig none none) ⟨some true, 0⟩ 0 (FetchOutcome.ok true)
        (SelectFetchOutcome.response true 200 (some ⟨["b", "a"], [], "", 0, 0⟩)) "q"
        [⟨"a", none, none⟩, ⟨"b", none, none⟩] none none).1
      = Except.ok (mapSelectedTools ["b", "a"] [⟨"a", none, none⟩, ⟨"b", none, none⟩]) ∧
    ((⟨"a", none, none⟩ : Tool) ∈
        mapSelectedTools ["b", "a"] [⟨"a", none, none⟩, ⟨"b", none, none⟩] ↔
      ((⟨"a", none, none⟩ : Tool) ∈ [(⟨"a", none, none⟩ : Tool), ⟨"b", none, none⟩] ∧
        (⟨"a", none, none⟩ : Tool).name ∈ ["b", "a"])) ∧
    ((mapSelectedTools ["b", "a"] [⟨"a", none, none⟩, ⟨"b", none, none⟩]).map
      Tool.name).Sublist ["b", "a"] := by
  have h := C4_success_rank_order_mapping (globalClientConfig none none) ⟨some true, 0⟩ 0
    (FetchOutcome.ok true) 200 ⟨["b", "a"], [], "", 0, 0⟩ "q"
    [⟨"a", none, none⟩, ⟨"b", none, none⟩] none none (by decide) (by decide) (by decide)
  exact ⟨h.1, h.2.1 ⟨"a", none, none⟩, h.2.2⟩

/-- C5 counterexample: with `maxTools = 1` and a service response naming
two candidate tools, the middleware delivers both: the success path never
truncates, so the delivered count exceeds the configured maximum. -/
theorem C5_counterexample :
    ∃ r, (createRAGListToolsMiddleware
        { enabled := true, maxTools := 1, similarityThreshold := 0,
          fallbackOnError := true, timeout := 5000 }
        (globalClientConfig none none) ⟨some true, 0⟩ 0 (FetchOutcome.ok true)
        (SelectFetchOutcome.response true 200 (some ⟨["a", "b"], [1, 1], "q", 2, 2⟩)) {} {}
        ⟨[⟨"a", none, none⟩, ⟨"b", none, none⟩], none, none⟩).1 = Except.ok r ∧
      1 < r.tools.length := by
  refine ⟨⟨[⟨"a", none, none⟩, ⟨"b", none, none⟩], none, none⟩, rfl, by decide⟩

/-- C5 (amended): the delivered tool count is bounded by `maxTools` on
every disabled, empty and fallback path unconditionally, and on the success
path whenever the relevance service returns at most `maxTools` names; it is
only a service that over-returns that can push the count past the
configured maximum. -/
theorem C5_amended_size_bound (mw : RAGToolsConfig) (e1 e2 : Option String)
    (st : ClientState) (now : Nat) (hp : FetchOutcome) (sf : SelectFetchOutcome)
    (req : MCPRequest) (ctx : MetaMCPHandlerContext) (resp : ListToolsResponse)
    (hmw : mw.enabled = true) (hsvc : selectedCount sf ≤ mw.maxTools) :
    ∀ r, (createRAGListToolsMiddleware mw (globalClientConfig e1 e2) st now hp sf
        req ctx resp).1 = Except.ok r → r.tools.length ≤ mw.maxTools := by
  intro r hr
  rw [createRAG_fst] at hr
  unfold mwResult at hr
  by_cases hcond : mw.enabled = false ∨ resp.tools = []
  · rw [if_pos hcond] at hr
    rcases hcond with hd | hnil
    · rw [hmw] at hd
      exact absurd hd (by simp)
    · rw [← Except.ok.inj hr, hnil]
      simp
  · rw [if_neg hcond] at hr
    cases hres : selectResult (globalClientConfig e1 e2) (isHealthy st now hp).1 sf
        resp.tools (some mw.maxTools) with
    | ok ts =>
      rw [hres] at hr
      dsimp only at hr
      rw [← Except.ok.inj hr]
      rcases selectResult_ok_cases _ _ _ _ _ _ hres with hts | ⟨status, result, hsf, hts⟩
      · rw [hts]
        exact List.length_take_le mw.maxTools resp.tools
      · rw [hts]
        calc (mapSelectedTools result.selected_tools resp.tools).length
            ≤ result.selected_tools.length := List.length_filterMap_le _ _
          _ = selectedCount sf := by subst hsf; rfl
          _ ≤ mw.maxTools := hsvc
    | error e =>
      rw [hres] at hr
      dsimp only at hr
      by_cases hfb : mw.fallbackOnError = true
      · rw [if_pos hfb] at hr
        rw [← Except.ok.inj hr]
        exact List.length_take_le mw.maxTools resp.tools
      · rw [if_neg hfb] at hr
        exact Except.noConfusion hr

/-- Witness for the amended C5 at a concrete input. -/
theorem C5_amended_witness :
    ([⟨"a", none, none⟩] : List Tool).length ≤ 10 := by
  have h := C5_amended_size_bound {} none none ⟨some true, 0⟩ 0 (FetchOutcome.ok true)
    (SelectFetchOutcome.response true 200 (some ⟨["a"], [], "", 0, 0⟩)) {} {}
    ⟨[⟨"a", none, none⟩, ⟨"b", none, none⟩], none, none⟩ rfl (by decide)
  exact h ⟨[⟨"a", none, none⟩], none, none⟩ rfl

/-- C6 counterexample: with both an explicit query field and an invoked
capability name present, the code synthesizes from the capability name
instead of using the explicit query: the claimed priority order is
reversed. -/
theorem C6_counterexample :
    extractUserIntentFromContext ⟨some ⟨some "x", some "y"⟩⟩ {} =
      "Find tools related to: x" ∧
    ("Find tools related to: x" : String) ≠ "y" := by
  exact ⟨by decide, by decide⟩

/-- C6 (amended): the task description priority chain is: a description
synthesized from the invoked capability name first, then the explicit query
field, then a namespace default when a namespace is in context, then the
generic default (truthiness: absent and empty strings fall through). -/
theorem C6_amended_priority (request : MCPRequest) (context : MetaMCPHandlerContext) :
    (∀ n, truthyStr (request.params.bind MCPRequestParams.name) = some n →
      extractUserIntentFromContext request context = "Find tools related to: " ++ n) ∧
    (truthyStr (request.params.bind MCPRequestParams.name) = none →
      ∀ q, truthyStr (request.params.bind MCPRequestParams.query) = some q →
        extractUserIntentFromContext request context = q) ∧
    (truthyStr (request.params.bind MCPRequestParams.name) = none →
      truthyStr (request.params.bind MCPRequestParams.query) = none →
      ∀ u, truthyStr context.namespaceUuid = some u →
        extractUserIntentFromContext request context =
          "Select tools for current namespace workflow") ∧
    (truthyStr (request.params.bind MCPRequestParams.name) = none →
      truthyStr (request.params.bind MCPRequestParams.query) = none →
      truthyStr context.namespaceUuid = none →
      extractUserIntentFromContext request context =
        "Select the most commonly used and essential tools") := by
  refine ⟨?_, ?_, ?_, ?_⟩
  · intro n hn
    unfold extractUserIntentFromContext
    rw [hn]
  · intro hn q hq
    unfold extractUserIntentFromContext
    rw [hn, hq]
  · intro hn hq u hu
    unfold extractUserIntentFromContext
    rw [hn, hq, hu]
  · intro hn hq hu
    unfold extractUserIntentFromContext
    rw [hn, hq, hu]

/-- Witness for the amended C6 at a concrete request. -/
theorem C6_amended_witness :
    extractUserIntentFromContext ⟨some ⟨some "x", none⟩⟩ {} = "Find tools related to: " ++ "x" :=
  (C6_amended_priority ⟨some ⟨some "x", none⟩⟩ {}).1 "x" (by decide)

/-- C7 counterexample: the cache window is anchored at the last probe, not
at the previous check: after a probe at time 0, a check at 29999 ms uses
the cache, yet a second check 2 ms later (30001 ms) probes again, although
the two checks are less than 30 s apart. -/
theorem C7_counterexample :
    (isHealthy ⟨some true, 0⟩ 29999 (FetchOutcome.ok true)).2.2 = [] ∧
    (isHealthy (isHealthy ⟨some true, 0⟩ 29999 (FetchOutcome.ok true)).2.1 30001
        (FetchOutcome.ok true)).2.2 = [NetEvent.healthProbe] ∧
    30001 - 29999 < HEALTH_CACHE_DURATION := by
  exact ⟨by decide, by decide, by decide⟩

/-- C7 (amended): a health check within the 30-second window of the last
recorded probe returns the cached value with no network probe; a probe is
issued exactly when no cached result exists or the last probe is at least
30 s old, and a probing check re-anchors the window by stamping the
current time. -/
theorem C7_amended_probe_anchored (st : ClientState) (now : Nat) (probe : FetchOutcome) :
    (∀ h, st.healthyCache = some h → now - st.lastHealthCheck < HEALTH_CACHE_DURATION →
      isHealthy st now probe = (h, st, [])) ∧
    ((isHealthy st now probe).2.2 ≠ [] ↔
      (st.healthyCache = none ∨ HEALTH_CACHE_DURATION ≤ now - st.lastHealthCheck)) ∧
    ((isHealthy st now probe).2.2 ≠ [] →
      (isHealthy st now probe).2.1.lastHealthCheck = now) :=
  ⟨fun h hc ht => isHealthy_cached st now probe h hc ht,
   isHealthy_events_ne_iff st now probe,
   fun hne => (isHealthy_probe_timestamp st now probe hne).1⟩

/-- Witness for the amended C7 at a concrete input. -/
theorem C7_amended_witness :
    isHealthy ⟨some true, 5⟩ 10 FetchOutcome.netError = (true, ⟨some true, 5⟩, []) :=
  (C7_amended_probe_anchored ⟨some true, 5⟩ 10 FetchOutcome.netError).1 true rfl (by decide)

/-- C8: repeating a list-capabilities request with the same tool set, the
same request and context, the same clock value and the same service
outcomes — running the second call from the client state the first call
left behind — yields an identical result: the pipeline is a deterministic
function of its inputs. -/
theorem C8_deterministic_repeat (mw : RAGToolsConfig) (cfg : RAGClientConfig)
    (st : ClientState) (now : Nat) (hp : FetchOutcome) (sf : SelectFetchOutcome)
    (req : MCPRequest) (ctx : MetaMCPHandlerContext) (resp : ListToolsResponse) :
    (createRAGListToolsMiddleware mw cfg
        (createRAGListToolsMiddleware mw cfg st now hp sf req ctx resp).2.1
        now hp sf req ctx resp).1 =
      (createRAGListToolsMiddleware mw cfg st now hp sf req ctx resp).1 := by
  rcases createRAG_state mw cfg st now hp sf req ctx resp with hst | hst
  · rw [hst]
  · rw [hst, createRAG_fst, createRAG_fst, (isHealthy_value_stable st now hp).1]

/-- C9: on every exit path of the middleware that returns a response, all
fields of the inner handler response other than `tools` are preserved
unchanged. -/
theorem C9_frame_preservation (mw : RAGToolsConfig) (cfg : RAGClientConfig)
    (st : ClientState) (now : Nat) (hp : FetchOutcome) (sf : SelectFetchOutcome)
    (req : MCPRequest) (ctx : MetaMCPHandlerContext) (resp : ListToolsResponse) :
    ∀ r, (createRAGListToolsMiddleware mw cfg st now hp sf req ctx resp).1 = Except.ok r →
      r.nextCursor = resp.nextCursor ∧ r.meta = resp.meta := by
  intro r hr
  rw [createRAG_fst] at hr
  unfold mwResult at hr
  by_cases hcond : mw.enabled = false ∨ resp.tools = []
  · rw [if_pos hcond] at hr
    rw [← Except.ok.inj hr]
    exact ⟨rfl, rfl⟩
  · rw [if_neg hcond] at hr
    cases hres : selectResult cfg (isHealthy st now hp).1 sf resp.tools (some mw.maxTools) with
    | ok ts =>
      rw [hres] at hr
      dsimp only at hr
      rw [← Except.ok.inj hr]
      exact ⟨rfl, rfl⟩
    | error e =>
      rw [hres] at hr
      dsimp only at hr
      by_cases hfb : mw.fallbackOnError = true
      · rw [if_pos hfb] at hr
        rw [← Except.ok.inj hr]
        exact ⟨rfl, rfl⟩
      · rw [if_neg hfb] at hr
        exact Except.noConfusion hr

/-- Witness for C9 at a concrete input. -/
theorem C9_witness :
    (⟨[], some "c", some "m"⟩ : ListToolsResponse).nextCursor = some "c" ∧
      (⟨[], some "c", some "m"⟩ : ListToolsResponse).meta = some "m" :=
  C9_frame_preservation {} (globalClientConfig none none) ⟨none, 0⟩ 0
    FetchOutcome.netError SelectFetchOutcome.netError {} {} ⟨[], some "c", some "m"⟩
    ⟨[], some "c", some "m"⟩ rfl

/-- C10: `isHealthy` is total in the embedding (it returns a boolean on
every path; errors of the probe are absorbed, never rethrown): after every
execution the health cache holds exactly the returned boolean; every
probing execution stamps the current time and returns the probed value
(`false` on a network error); and a network-error probe records
`(false, now)` in the cache. -/
theorem C10_isHealthy_total_and_records (st : ClientState) (now : Nat) (probe : FetchOutcome) :
    (isHealthy st now probe).2.1.healthyCache = some (isHealthy st now probe).1 ∧
    ((isHealthy st now probe).2.2 ≠ [] →
      (isHealthy st now probe).2.1.lastHealthCheck = now ∧
        (isHealthy st now probe).1 = probeValue probe) ∧
    (probe = FetchOutcome.netError →
      (st.healthyCache = none ∨ HEALTH_CACHE_DURATION ≤ now - st.lastHealthCheck) →
      isHealthy st now probe = (false, ⟨some false, now⟩, [NetEvent.healthProbe])) :=
  ⟨isHealthy_state_cache st now probe,
   fun hne => isHealthy_probe_timestamp st now probe hne,
   fun hpe hmiss => by
    subst hpe
    rw [isHealthy_probes st now FetchOutcome.netError hmiss]
    rfl⟩

/-- Witness for C10 at a concrete failing probe. -/
theorem C10_witness :
    isHealthy ⟨none, 0⟩ 7 FetchOutcome.netError =
      (false, ⟨some false, 7⟩, [NetEvent.healthProbe]) :=
  (C10_isHealthy_total_and_records ⟨none, 0⟩ 7 FetchOutcome.netError).2.2 rfl (Or.inl rfl)

end MetaMCP
